import Mathlib

/-!
Verification of the scroll-driven image-sequence component
(src/src/components/CanvasScrollImageSequence.tsx).

The component preloads a fixed list of images, maps scroll position to a
discrete frame index, redraws a canvas when the index changes, and drives a
two-stage text overlay.  The embedding below models, straight from the
source:

* progress computation and clamping inside handleScroll;
* frame selection inside updateFrame, with JavaScript Math.round modelled
  as floor of x + 1/2 on rationals;
* the redraw gate, the overlay booleans and the 800ms settle timer of
  updateFrame, as a state-transition function emitting an effect list;
* the cover-fit geometry of drawFrame;
* Promise.all semantics of preloadImages;
* the ticking flag scheduling of the scroll handler (the pending-flag
  pattern coalescing scroll bursts into one animation-frame update);
* resizeCanvas.

Numbers are rationals; browser floating point is out of scope.
-/

namespace CanvasScrollImageSequence

/-- JavaScript Math.round modelled on rationals: the floor of x + 1/2, which
rounds ties toward positive infinity exactly as Math.round does. -/
def jsRound (q : ℚ) : ℤ := ⌊q + 1/2⌋

/-- Clamping to the unit interval as written in the source:
Math.max(0, Math.min(1, p)). -/
def clamp01 (p : ℚ) : ℚ := max 0 (min 1 p)

/-- Frame selection of updateFrame: clamp the progress, scale by
images.length - 1 and round to the nearest frame. -/
def frameIndexOf (progress : ℚ) (numImages : ℕ) : ℤ :=
  jsRound (clamp01 progress * ((numImages : ℚ) - 1))

/-- Progress computation of handleScroll: containerHeight is
rect.height - window.innerHeight; when positive the progress is the clamped
ratio -rect.top / containerHeight, otherwise 0. -/
def scrollProgressOf (top height innerHeight : ℚ) : ℚ :=
  let containerHeight := height - innerHeight
  if 0 < containerHeight then clamp01 (-top / containerHeight) else 0

/-- An entry of loadedImagesRef: the decoded bitmap dimensions together with
the ready flag set by the onload callback. -/
structure LoadedImage where
  width : ℚ
  height : ℚ
  loaded : Bool
deriving DecidableEq

/-- The canvas element: its pixel dimensions. -/
structure Canvas where
  width : ℚ
  height : ℚ
deriving DecidableEq

/-- Cover-fit geometry of drawFrame: returns
(drawWidth, drawHeight, offsetX, offsetY).  When the image is wider than
the canvas the height is matched and the horizontal overflow centred,
otherwise the width is matched and the vertical overflow centred. -/
def coverFit (canvasWidth canvasHeight imageWidth imageHeight : ℚ) :
    ℚ × ℚ × ℚ × ℚ :=
  let canvasAspect := canvasWidth / canvasHeight
  let imageAspect := imageWidth / imageHeight
  if imageAspect > canvasAspect then
    (canvasHeight * imageAspect, canvasHeight,
      (canvasWidth - canvasHeight * imageAspect) / 2, 0)
  else
    (canvasWidth, canvasWidth / imageAspect, 0,
      (canvasHeight - canvasWidth / imageAspect) / 2)

/-- The drawFrame procedure.  It returns the blit command actually issued
(draw rectangle as produced by coverFit), or none when any of the source's
guards fires: missing canvas, images not loaded, frame index out of range,
missing 2d context, or a missing/not-ready image entry. -/
def drawFrame (canvas : Option Canvas) (imagesLoaded : Bool)
    (loadedImages : List LoadedImage) (ctxAvailable : Bool) (frameIndex : ℤ) :
    Option (ℚ × ℚ × ℚ × ℚ) :=
  match canvas with
  | none => none
  | some c =>
    if imagesLoaded = false ∨ frameIndex < 0 ∨
        (loadedImages.length : ℤ) ≤ frameIndex then none
    else if ctxAvailable = false then none
    else
      match loadedImages.get? frameIndex.toNat with
      | none => none
      | some entry =>
        if entry.loaded = false then none
        else some (coverFit c.width c.height entry.width entry.height)

/-- Promise.all over the per-image load outcomes: each outcome is the image
dimensions on success or none on an onerror rejection.  The aggregate
succeeds, in order, only when every acquisition succeeds; the first failure
rejects the whole operation. -/
def preloadImages : List (Option (ℚ × ℚ)) → Option (List LoadedImage)
  | [] => some []
  | none :: _ => none
  | some d :: rest =>
    (preloadImages rest).map fun l => ⟨d.1, d.2, true⟩ :: l

/-- Result of the preload effect: the imagesLoaded flag and the contents of
loadedImagesRef. -/
structure PreloadResult where
  imagesLoaded : Bool
  loadedImages : List LoadedImage
deriving DecidableEq

/-- Running the preload effect: on success the ref is published and the
loaded flag flipped; on failure the error is only logged, the ref keeps its
initial empty value and the flag stays false. -/
def runPreload (results : List (Option (ℚ × ℚ))) : PreloadResult :=
  match preloadImages results with
  | some imgs => ⟨true, imgs⟩
  | none => ⟨false, []⟩

/-- Observable effects of one updateFrame call: a drawFrame call, a
clearTimeout of the description timer, or a setTimeout arming it with the
given delay in milliseconds. -/
inductive Effect where
  | draw (frameIndex : ℤ)
  | cancelTimer
  | armTimer (delayMs : ℕ)
deriving DecidableEq

/-- Renderer state: lastFrameRef, the currentFrame state, the two overlay
booleans and whether descriptionTimeout.current holds a timer id. -/
structure CompState where
  lastFrame : ℤ
  currentFrame : ℤ
  showText : Bool
  showDescription : Bool
  timeoutId : Bool
deriving DecidableEq

/-- Initial renderer state: lastFrameRef starts at -1, currentFrame at 0,
both overlay booleans false, no timer armed. -/
def initState : CompState := ⟨-1, 0, false, false, false⟩

/-- Overlay logic of updateFrame after a frame change: above the trigger,
a timer is cleared and re-armed unless the description is already shown;
below the trigger, any timer is cleared and the description hidden. -/
def overlayStep (textTriggerFrame frameIndex : ℤ) (s : CompState) :
    CompState × List Effect :=
  if textTriggerFrame ≤ frameIndex then
    if s.showDescription then (s, [])
    else ({ s with timeoutId := true },
      (if s.timeoutId then [Effect.cancelTimer] else []) ++ [Effect.armTimer 800])
  else
    ({ s with showDescription := false },
      if s.timeoutId then [Effect.cancelTimer] else [])

/-- Body of updateFrame once the redraw gate has passed: record the frame,
call drawFrame, set the primary text visibility, then run the overlay
timer logic. -/
def applyFrame (textTriggerFrame frameIndex : ℤ) (s : CompState) :
    CompState × List Effect :=
  let s1 : CompState :=
    { s with lastFrame := frameIndex, currentFrame := frameIndex,
             showText := textTriggerFrame ≤ frameIndex }
  let r := overlayStep textTriggerFrame frameIndex s1
  (r.1, Effect.draw frameIndex :: r.2)

/-- The updateFrame callback: compute the frame index from the clamped
progress and act only when it differs from lastFrameRef and lies in range. -/
def updateFrame (numImages : ℕ) (textTriggerFrame : ℤ) (progress : ℚ)
    (s : CompState) : CompState × List Effect :=
  let frameIndex := frameIndexOf progress numImages
  if frameIndex ≠ s.lastFrame ∧ 0 ≤ frameIndex ∧ frameIndex < (numImages : ℤ) then
    applyFrame textTriggerFrame frameIndex s
  else (s, [])

/-- The settle timer firing: the timeout callback only shows the
description. -/
def settleTimerFire (s : CompState) : CompState := { s with showDescription := true }

/-- Number of drawFrame calls in an effect list. -/
def countDraws : List Effect → ℕ
  | [] => 0
  | Effect.draw _ :: es => countDraws es + 1
  | _ :: es => countDraws es

/-- Scheduler state of the scroll-handling effect: the ticking flag and the
progress value captured by the closure passed to requestAnimationFrame, if
one is scheduled. -/
structure TickState where
  ticking : Bool
  scheduled : Option ℚ
deriving DecidableEq

/-- Initial scheduler state: not ticking, nothing scheduled. -/
def initTick : TickState := ⟨false, none⟩

/-- One scroll event whose progress computation yielded the given value:
when ticking is already set the event is dropped entirely; otherwise the
flag is set and a frame callback closing over this progress is scheduled. -/
def handleScrollEvent (progress : ℚ) (t : TickState) : TickState :=
  if t.ticking then t else { ticking := true, scheduled := some progress }

/-- The animation-frame tick: run updateFrame with the captured progress
(returned in the second component) and clear the ticking flag. -/
def runTick (t : TickState) : TickState × Option ℚ :=
  match t.scheduled with
  | some p => (⟨false, none⟩, some p)
  | none => (t, none)

/-- The scroll container's bounding rectangle as used by handleScroll. -/
structure Rect where
  top : ℚ
  height : ℚ
deriving DecidableEq

/-- The full handleScroll callback: it returns immediately and touches
nothing when the container ref is empty or the images are not loaded;
otherwise it computes the progress from the current geometry and runs the
ticking-flag scheduling. -/
def handleScroll (container : Option Rect) (imagesLoaded : Bool)
    (innerHeight : ℚ) (t : TickState) : TickState :=
  match container with
  | none => t
  | some rect =>
    if imagesLoaded then
      handleScrollEvent (scrollProgressOf rect.top rect.height innerHeight) t
    else t

/-- The resizeCanvas callback: with a parent container present it always
resynchronises the canvas pixel dimensions to the container's rendered
size, and additionally issues a drawFrame of the current frame (second
component) only when the images are loaded. -/
def resizeCanvas (container : Option (ℚ × ℚ)) (imagesLoaded : Bool)
    (currentFrame : ℤ) (canvas : Canvas) : Canvas × Option ℤ :=
  match container with
  | none => (canvas, none)
  | some wh =>
    (⟨wh.1, wh.2⟩, if imagesLoaded then some currentFrame else none)

/-- A state with the primary text shown and the settle timer armed but not
yet fired, reached for instance after crossing the trigger frame once. -/
def abovePending : CompState :=
  { lastFrame := 26, currentFrame := 26, showText := true,
    showDescription := false, timeoutId := true }

/-- A state with both texts shown, reached once the settle timer of
abovePending has fired. -/
def aboveSettled : CompState :=
  { lastFrame := 26, currentFrame := 26, showText := true,
    showDescription := true, timeoutId := true }

/-! Helper lemmas. -/

theorem jsRound_eq (q : ℚ) (z : ℤ) (h1 : (z : ℚ) ≤ q + 1/2)
    (h2 : q + 1/2 < z + 1) : jsRound q = z := by
  rw [jsRound, Int.floor_eq_iff]
  exact ⟨h1, by exact_mod_cast h2⟩

theorem jsRound_intCast (m : ℤ) : jsRound (m : ℚ) = m := by
  apply jsRound_eq <;> norm_num

theorem jsRound_mono {a b : ℚ} (h : a ≤ b) : jsRound a ≤ jsRound b :=
  Int.floor_le_floor (by linarith)

theorem clamp01_nonneg (p : ℚ) : 0 ≤ clamp01 p := le_max_left 0 _

theorem clamp01_le_one (p : ℚ) : clamp01 p ≤ 1 :=
  max_le (by norm_num) (min_le_left 1 p)

theorem clamp01_mono {p q : ℚ} (h : p ≤ q) : clamp01 p ≤ clamp01 q :=
  max_le_max le_rfl (min_le_min le_rfl h)

theorem clamp01_of_mem {p : ℚ} (h0 : 0 ≤ p) (h1 : p ≤ 1) : clamp01 p = p := by
  rw [clamp01, min_eq_right h1, max_eq_right h0]

theorem clamp01_zero : clamp01 0 = 0 := clamp01_of_mem le_rfl (by norm_num)

theorem clamp01_one : clamp01 1 = 1 := clamp01_of_mem (by norm_num) le_rfl

theorem frameIndexOf_zero (n : ℕ) : frameIndexOf 0 n = 0 := by
  rw [frameIndexOf, clamp01_zero, zero_mul]
  apply jsRound_eq <;> norm_num

theorem frameIndexOf_one (n : ℕ) : frameIndexOf 1 n = (n : ℤ) - 1 := by
  rw [frameIndexOf, clamp01_one, one_mul,
    show ((n : ℚ) - 1) = (((n : ℤ) - 1 : ℤ) : ℚ) by push_cast; ring]
  exact jsRound_intCast _

theorem frameIndexOf_half : frameIndexOf (1/2) 30 = 15 := by
  rw [frameIndexOf, clamp01_of_mem (by norm_num) (by norm_num)]
  apply jsRound_eq <;> norm_num

theorem frameIndexOf_2729 : frameIndexOf (27/29) 30 = 27 := by
  rw [frameIndexOf, clamp01_of_mem (by norm_num) (by norm_num)]
  apply jsRound_eq <;> norm_num

theorem scrollProgressOf_pos {top height innerHeight : ℚ}
    (h : 0 < height - innerHeight) :
    scrollProgressOf top height innerHeight =
      clamp01 (-top / (height - innerHeight)) := by
  simp only [scrollProgressOf]
  rw [if_pos h]

theorem scrollProgressOf_nonpos {top height innerHeight : ℚ}
    (h : height - innerHeight ≤ 0) :
    scrollProgressOf top height innerHeight = 0 := by
  simp only [scrollProgressOf]
  rw [if_neg (not_lt.mpr h)]

theorem updateFrame_pos (N : ℕ) (T : ℤ) (p : ℚ) (s : CompState)
    (h1 : frameIndexOf p N ≠ s.lastFrame) (h2 : 0 ≤ frameIndexOf p N)
    (h3 : frameIndexOf p N < (N : ℤ)) :
    updateFrame N T p s = applyFrame T (frameIndexOf p N) s := by
  simp only [updateFrame]
  exact if_pos ⟨h1, h2, h3⟩

theorem updateFrame_neg (N : ℕ) (T : ℤ) (p : ℚ) (s : CompState)
    (h : ¬(frameIndexOf p N ≠ s.lastFrame ∧ 0 ≤ frameIndexOf p N ∧
      frameIndexOf p N < (N : ℤ))) :
    updateFrame N T p s = (s, []) := by
  simp only [updateFrame]
  exact if_neg h

theorem overlayStep_lastFrame (T i : ℤ) (s : CompState) :
    (overlayStep T i s).1.lastFrame = s.lastFrame := by
  rw [overlayStep]
  rcases le_or_lt T i with h | h
  · rw [if_pos h]
    cases hd : s.showDescription <;> simp [hd]
  · rw [if_neg (not_le.mpr h)]

theorem overlayStep_countDraws (T i : ℤ) (s : CompState) :
    countDraws (overlayStep T i s).2 = 0 := by
  rw [overlayStep]
  rcases le_or_lt T i with h | h
  · rw [if_pos h]
    cases hd : s.showDescription
    · cases ht : s.timeoutId <;> simp [hd, ht, countDraws]
    · simp [hd, countDraws]
  · rw [if_neg (not_le.mpr h)]
    cases ht : s.timeoutId <;> simp [ht, countDraws]

theorem overlayStep_no_draw (T i : ℤ) (s : CompState) (j : ℤ) :
    Effect.draw j ∉ (overlayStep T i s).2 := by
  rw [overlayStep]
  rcases le_or_lt T i with h | h
  · rw [if_pos h]
    cases hd : s.showDescription
    · cases ht : s.timeoutId <;> simp [hd, ht]
    · simp [hd]
  · rw [if_neg (not_le.mpr h)]
    cases ht : s.timeoutId <;> simp [ht]

theorem applyFrame_lastFrame (T i : ℤ) (s : CompState) :
    (applyFrame T i s).1.lastFrame = i := by
  simp only [applyFrame]
  rw [overlayStep_lastFrame]

theorem applyFrame_countDraws (T i : ℤ) (s : CompState) :
    countDraws (applyFrame T i s).2 = 1 := by
  simp only [applyFrame, countDraws]
  rw [overlayStep_countDraws]

theorem preloadImages_of_mem_none {results : List (Option (ℚ × ℚ))}
    (h : none ∈ results) : preloadImages results = none := by
  induction results with
  | nil => cases h
  | cons r rest ih =>
    cases r with
    | none => rfl
    | some d =>
      rw [List.mem_cons] at h
      rcases h with h | h
      · cases h
      · simp [preloadImages, ih h]

theorem handleScrollEvent_of_ticking {p : ℚ} {t : TickState}
    (h : t.ticking = true) : handleScrollEvent p t = t := by
  simp [handleScrollEvent, h]

theorem foldl_handleScrollEvent_of_ticking (ps : List ℚ) (t : TickState)
    (h : t.ticking = true) :
    ps.foldl (fun acc q => handleScrollEvent q acc) t = t := by
  induction ps with
  | nil => rfl
  | cons q qs ih =>
    rw [List.foldl_cons, handleScrollEvent_of_ticking h]
    exact ih

/-! Claim theorems. -/

/-- C5: for every containerTopOffset and every scrollableRange
(height minus viewport height), if the range is positive the computed
progress equals clamp((-top)/range, 0, 1) and lies in [0, 1]; if the range
is nonpositive the computed progress is 0. -/
theorem C5_progress_clamping (top height innerHeight : ℚ) :
    (0 < height - innerHeight →
      scrollProgressOf top height innerHeight =
          max 0 (min 1 (-top / (height - innerHeight))) ∧
      0 ≤ scrollProgressOf top height innerHeight ∧
      scrollProgressOf top height innerHeight ≤ 1) ∧
    (height - innerHeight ≤ 0 → scrollProgressOf top height innerHeight = 0) := by
  constructor
  · intro h
    rw [scrollProgressOf_pos h]
    exact ⟨rfl, clamp01_nonneg _, clamp01_le_one _⟩
  · exact scrollProgressOf_nonpos

/-- Witness for C5: concrete geometry with a positive scrollable range
(container 4000 high, viewport 1000, scrolled 1500 past) and one with a
nonpositive range (container 500 high, viewport 1000). -/
theorem C5_witness :
    scrollProgressOf (-1500) 4000 1000 =
      max 0 (min 1 (-(-1500 : ℚ) / (4000 - 1000))) ∧
    0 ≤ scrollProgressOf (-1500) 4000 1000 ∧
    scrollProgressOf (-1500) 4000 1000 ≤ 1 ∧
    scrollProgressOf 0 500 1000 = 0 :=
  ⟨((C5_progress_clamping (-1500) 4000 1000).1 (by norm_num)).1,
   ((C5_progress_clamping (-1500) 4000 1000).1 (by norm_num)).2.1,
   ((C5_progress_clamping (-1500) 4000 1000).1 (by norm_num)).2.2,
   (C5_progress_clamping 0 500 1000).2 (by norm_num)⟩

/-- C6: frame selection maps progress p to round(p * (N-1)) with
nearest-integer rounding: progress 0 yields frame 0, progress 1 yields
frame N-1, for N = 30 progress 1/2 yields frame 15 (whereas flooring the
exact frame 29/2 would give 14, so the mapping is not a floor). -/
theorem C6_boundary_exactness (n : ℕ) :
    frameIndexOf 0 n = 0 ∧ frameIndexOf 1 n = (n : ℤ) - 1 ∧
    frameIndexOf (1/2) 30 = 15 ∧ ⌊clamp01 (1/2) * ((30 : ℚ) - 1)⌋ = 14 := by
  refine ⟨frameIndexOf_zero n, frameIndexOf_one n, frameIndexOf_half, ?_⟩
  rw [clamp01_of_mem (by norm_num) (by norm_num)]
  rw [Int.floor_eq_iff]
  norm_num

/-- C7: the progress-to-frame mapping is monotone non-decreasing: for a
nonempty image sequence and progress values p1 < p2, the frame index
computed for p1 is at most the frame index computed for p2. -/
theorem C7_frame_mapping_monotone (n : ℕ) (p1 p2 : ℚ) (hn : 1 ≤ n)
    (h : p1 < p2) : frameIndexOf p1 n ≤ frameIndexOf p2 n := by
  rw [frameIndexOf, frameIndexOf]
  apply jsRound_mono
  apply mul_le_mul_of_nonneg_right (clamp01_mono h.le)
  have h1 : (1 : ℚ) ≤ (n : ℚ) := by exact_mod_cast hn
  linarith

/-- Witness for C7: the 30-image sequence at progress values 0 < 1. -/
theorem C7_witness :
    1 ≤ 30 ∧ (0 : ℚ) < 1 ∧ frameIndexOf 0 30 ≤ frameIndexOf 1 30 :=
  ⟨by norm_num, by norm_num,
   C7_frame_mapping_monotone 30 0 1 (by norm_num) (by norm_num)⟩

/-- C8: the draw procedure computes a cover fit: when the image aspect
exceeds the canvas aspect the height is matched, the width scaled by the
image aspect and the horizontal overflow centred, otherwise the width is
matched, the height scaled and the vertical overflow centred; in
particular a 1000 by 500 canvas with a 400 by 400 image gives draw size
1000 by 1000 at offsets (0, -250). -/
theorem C8_cover_fit (cw ch iw ihh : ℚ) :
    (iw / ihh > cw / ch →
      coverFit cw ch iw ihh =
        (ch * (iw / ihh), ch, (cw - ch * (iw / ihh)) / 2, 0)) ∧
    (¬iw / ihh > cw / ch →
      coverFit cw ch iw ihh =
        (cw, cw / (iw / ihh), 0, (ch - cw / (iw / ihh)) / 2)) ∧
    coverFit 1000 500 400 400 = (1000, 1000, 0, -250) := by
  refine ⟨fun h => ?_, fun h => ?_, ?_⟩
  · simp only [coverFit]
    rw [if_pos h]
  · simp only [coverFit]
    rw [if_neg h]
  · simp only [coverFit]
    rw [if_neg (by norm_num)]
    norm_num

/-- Witness for C8: a 500 by 1000 canvas with a 400 by 200 image takes the
wider-than-canvas branch. -/
theorem C8_witness :
    coverFit 500 1000 400 200 =
      ((1000 : ℚ) * (400 / 200), 1000, (500 - 1000 * (400 / 200)) / 2, 0) :=
  (C8_cover_fit 500 1000 400 200).1 (by norm_num)

/-- C3: preload is all-or-nothing: if any single acquisition fails, the
aggregate fails, the loaded flag is never set, the loadedImages ref keeps
its initial empty value, and drawFrame never draws anything whatever the
canvas, context or frame index. -/
theorem C3_preload_all_or_nothing (results : List (Option (ℚ × ℚ)))
    (h : none ∈ results) :
    (runPreload results).imagesLoaded = false ∧
    (runPreload results).loadedImages = [] ∧
    ∀ (canvas : Option Canvas) (ctxAvailable : Bool) (frameIndex : ℤ),
      drawFrame canvas (runPreload results).imagesLoaded
        (runPreload results).loadedImages ctxAvailable frameIndex = none := by
  have hp : runPreload results = ⟨false, []⟩ := by
    rw [runPreload, preloadImages_of_mem_none h]
  refine ⟨by rw [hp], by rw [hp], ?_⟩
  intro canvas ctx i
  rw [hp]
  cases canvas with
  | none => rfl
  | some c => simp [drawFrame]

/-- Witness for C3: three locators of which the second fails. -/
theorem C3_witness :
    (runPreload [some (800, 600), none, some (100, 100)]).imagesLoaded = false ∧
    drawFrame (some ⟨1000, 500⟩)
      (runPreload [some (800, 600), none, some (100, 100)]).imagesLoaded
      (runPreload [some (800, 600), none, some (100, 100)]).loadedImages
      true 0 = none :=
  ⟨(C3_preload_all_or_nothing _ (by simp)).1,
   (C3_preload_all_or_nothing _ (by simp)).2.2 _ _ _⟩

/-- C9: redraw gating: updateFrame is a no-op when the computed frame index
equals the previously drawn one, and when it differs (and is in range) the
call issues exactly one drawFrame call while an immediately repeated call
with the same progress is a no-op that changes no state. -/
theorem C9_redraw_gating (N : ℕ) (T : ℤ) (p : ℚ) (s : CompState) :
    (frameIndexOf p N = s.lastFrame → updateFrame N T p s = (s, [])) ∧
    (frameIndexOf p N ≠ s.lastFrame → 0 ≤ frameIndexOf p N →
      frameIndexOf p N < (N : ℤ) →
      countDraws (updateFrame N T p s).2 = 1 ∧
      updateFrame N T p (updateFrame N T p s).1 =
        ((updateFrame N T p s).1, [])) := by
  constructor
  · intro h
    apply updateFrame_neg
    rintro ⟨hne, -, -⟩
    exact hne h
  · intro h1 h2 h3
    have he := updateFrame_pos N T p s h1 h2 h3
    constructor
    · rw [he, applyFrame_countDraws]
    · apply updateFrame_neg
      rintro ⟨hne, -, -⟩
      apply hne
      rw [he, applyFrame_lastFrame]

/-- Witness for C9: the 30-image sequence from the initial state at
progress 1/2 (frame 15). -/
theorem C9_witness :
    countDraws (updateFrame 30 26 (1/2) initState).2 = 1 ∧
    updateFrame 30 26 (1/2) (updateFrame 30 26 (1/2) initState).1 =
      ((updateFrame 30 26 (1/2) initState).1, []) :=
  (C9_redraw_gating 30 26 (1/2) initState).2
    (by rw [frameIndexOf_half]; decide)
    (by rw [frameIndexOf_half]; decide)
    (by rw [frameIndexOf_half]; decide)

/-- C10: safety of updateFrame: with an empty image list it never draws and
never changes state, every drawFrame call it issues targets a frame index
inside [0, N-1] (for any progress input, clamped internally), and any state
change implies the computed frame index was in range. -/
theorem C10_frame_safety (N : ℕ) (T : ℤ) (p : ℚ) (s : CompState) :
    (N = 0 → updateFrame N T p s = (s, [])) ∧
    (∀ i : ℤ, Effect.draw i ∈ (updateFrame N T p s).2 →
      0 ≤ i ∧ i < (N : ℤ)) ∧
    ((updateFrame N T p s).1 ≠ s →
      0 ≤ frameIndexOf p N ∧ frameIndexOf p N < (N : ℤ)) := by
  by_cases hc : frameIndexOf p N ≠ s.lastFrame ∧ 0 ≤ frameIndexOf p N ∧
      frameIndexOf p N < (N : ℤ)
  · obtain ⟨h1, h2, h3⟩ := hc
    have he := updateFrame_pos N T p s h1 h2 h3
    refine ⟨?_, ?_, fun _ => ⟨h2, h3⟩⟩
    · intro hN
      subst hN
      simp only [Nat.cast_zero] at h3
      omega
    · intro i hi
      rw [he] at hi
      simp only [applyFrame] at hi
      rcases List.mem_cons.mp hi with h | h
      · injection h with h
        subst h
        exact ⟨h2, h3⟩
      · exact absurd h (overlayStep_no_draw _ _ _ _)
  · have he := updateFrame_neg N T p s hc
    refine ⟨fun _ => he, ?_, ?_⟩
    · intro i hi
      rw [he] at hi
      cases hi
    · intro hne
      rw [he] at hne
      exact absurd rfl hne

/-- Witness for C10: the empty sequence is a no-op at progress 1/2, and the
30-image sequence draws frame 15 at progress 1/2, which is in range. -/
theorem C10_witness :
    updateFrame 0 26 (1/2) initState = (initState, []) ∧
    (0 ≤ (15 : ℤ) ∧ (15 : ℤ) < ((30 : ℕ) : ℤ)) :=
  ⟨(C10_frame_safety 0 26 (1/2) initState).1 rfl,
   (C10_frame_safety 30 26 (1/2) initState).2.1 15 (by
      rw [updateFrame_pos 30 26 (1/2) initState
          (by rw [frameIndexOf_half]; decide)
          (by rw [frameIndexOf_half]; decide)
          (by rw [frameIndexOf_half]; decide),
        frameIndexOf_half]
      decide)⟩

theorem overlayStep_no_arm (T i : ℤ) (s : CompState)
    (hd : s.showDescription = true) (d : ℕ) :
    Effect.armTimer d ∉ (overlayStep T i s).2 := by
  rw [overlayStep]
  rcases le_or_lt T i with h | h
  · rw [if_pos h]
    simp [hd]
  · rw [if_neg (not_le.mpr h)]
    cases ht : s.timeoutId <;> simp [ht]

/-- C1 counterexample: two scroll events fire before the scheduled tick
(the container first at top 0, then scrolled to top -3000, so the latest
progress is 1), yet the tick runs updateFrame with progress 0, the value
captured by the first event, not the latest. -/
theorem C1_counterexample :
    (runTick (handleScroll (some ⟨-3000, 4000⟩) true 1000
        (handleScroll (some ⟨0, 4000⟩) true 1000 initTick))).2 = some 0 ∧
    scrollProgressOf (-3000) 4000 1000 = 1 ∧ (0 : ℚ) ≠ 1 := by
  have h1 : scrollProgressOf 0 4000 1000 = 0 := by
    rw [scrollProgressOf_pos (by norm_num)]
    norm_num [clamp01_zero]
  have h2 : scrollProgressOf (-3000) 4000 1000 = 1 := by
    rw [scrollProgressOf_pos (by norm_num)]
    norm_num [clamp01_one]
  refine ⟨?_, h2, by norm_num⟩
  show some (scrollProgressOf 0 4000 1000) = some 0
  rw [h1]

/-- C1 (amended): scroll coalescing collapses to the first event of a
burst: whatever events follow the one that set the ticking flag, the
single update performed at the tick uses the first event's progress value,
the later values are discarded, and the ticking flag is cleared once the
scheduled update runs. -/
theorem C1_collapse_to_first (p : ℚ) (ps : List ℚ) :
    runTick (ps.foldl (fun acc q => handleScrollEvent q acc)
      (handleScrollEvent p initTick)) = (initTick, some p) := by
  rw [show handleScrollEvent p initTick = ⟨true, some p⟩ from rfl,
    foldl_handleScrollEvent_of_ticking ps ⟨true, some p⟩ rfl]
  rfl

/-- C2 counterexample: in the above-pending state (primary text shown,
settle timer armed, description not yet shown), a further frame change that
stays at or above the trigger frame (frame 26 to 27 with trigger 26)
re-arms the settle timer: updateFrame emits a fresh 800ms setTimeout. -/
theorem C2_counterexample :
    abovePending.showDescription = false ∧ abovePending.timeoutId = true ∧
    26 ≤ frameIndexOf (27/29) 30 ∧
    Effect.armTimer 800 ∈ (updateFrame 30 26 (27/29) abovePending).2 := by
  refine ⟨rfl, rfl, by rw [frameIndexOf_2729]; decide, ?_⟩
  rw [updateFrame_pos 30 26 (27/29) abovePending
      (by rw [frameIndexOf_2729]; decide)
      (by rw [frameIndexOf_2729]; decide) (by rw [frameIndexOf_2729]; decide),
    frameIndexOf_2729]
  decide

/-- C2 (amended): the secondary-visibility guard only prevents re-arming
once the secondary text is already visible: when showDescription is true no
call of updateFrame ever arms the timer; but while the timer is pending and
the description not yet shown, any frame change at or above the trigger
clears the pending timer and arms a fresh 800ms one. -/
theorem C2_settle_timer_rearm (N : ℕ) (T : ℤ) (p : ℚ) (s : CompState) :
    (s.showDescription = true →
      ∀ d : ℕ, Effect.armTimer d ∉ (updateFrame N T p s).2) ∧
    (s.showDescription = false → s.timeoutId = true →
      frameIndexOf p N ≠ s.lastFrame → 0 ≤ frameIndexOf p N →
      frameIndexOf p N < (N : ℤ) → T ≤ frameIndexOf p N →
      Effect.cancelTimer ∈ (updateFrame N T p s).2 ∧
      Effect.armTimer 800 ∈ (updateFrame N T p s).2) := by
  constructor
  · intro hd d
    by_cases hc : frameIndexOf p N ≠ s.lastFrame ∧ 0 ≤ frameIndexOf p N ∧
        frameIndexOf p N < (N : ℤ)
    · rw [updateFrame_pos N T p s hc.1 hc.2.1 hc.2.2]
      simp only [applyFrame]
      intro hmem
      rcases List.mem_cons.mp hmem with h | h
      · cases h
      · exact absurd h (overlayStep_no_arm _ _ _ (by exact hd) d)
    · rw [updateFrame_neg N T p s hc]
      simp
  · intro hd ht h1 h2 h3 hT
    rw [updateFrame_pos N T p s h1 h2 h3]
    simp only [applyFrame, overlayStep, if_pos hT]
    simp [hd, ht]

/-- Witness for C2: with the 30-image sequence and trigger 26, moving to
frame 27 arms no timer from the above-settled state, but re-arms the 800ms
timer from the above-pending state. -/
theorem C2_witness :
    (∀ d : ℕ, Effect.armTimer d ∉ (updateFrame 30 26 (27/29) aboveSettled).2) ∧
    Effect.armTimer 800 ∈ (updateFrame 30 26 (27/29) abovePending).2 :=
  ⟨(C2_settle_timer_rearm 30 26 (27/29) aboveSettled).1 rfl,
   ((C2_settle_timer_rearm 30 26 (27/29) abovePending).2 rfl rfl
      (by rw [frameIndexOf_2729]; decide) (by rw [frameIndexOf_2729]; decide)
      (by rw [frameIndexOf_2729]; decide)
      (by rw [frameIndexOf_2729]; decide)).2⟩

/-- C4 counterexample: with the loaded flag still false, resizeCanvas
nevertheless resynchronises the canvas pixel dimensions (here from 0 by 0
to 800 by 600): canvas sizing is not gated by the loaded flag. -/
theorem C4_counterexample :
    (resizeCanvas (some (800, 600)) false 0 ⟨0, 0⟩).1 = ⟨800, 600⟩ ∧
    (⟨800, 600⟩ : Canvas) ≠ ⟨0, 0⟩ := by
  refine ⟨rfl, ?_⟩
  intro h
  rw [Canvas.mk.injEq] at h
  exact absurd h.1 (by norm_num)

/-- C4 (amended): before the loaded flag is set, no scroll event is
processed (handleScroll returns before computing or scheduling anything)
and no frame is ever drawn (drawFrame and the post-resize redraw of
resizeCanvas are both gated); canvas sizing, however, is not gated: it
happens on mount and on every resize regardless of the flag. -/
theorem C4_loaded_gate (rect : Rect) (innerHeight : ℚ) (t : TickState)
    (container : Option (ℚ × ℚ)) (frame : ℤ) (canvas : Option Canvas)
    (c : Canvas) (loadedImages : List LoadedImage) (ctxAvailable : Bool)
    (frameIndex : ℤ) (wh : ℚ × ℚ) :
    handleScroll (some rect) false innerHeight t = t ∧
    drawFrame canvas false loadedImages ctxAvailable frameIndex = none ∧
    (resizeCanvas container false frame c).2 = none ∧
    (resizeCanvas (some wh) false frame c).1 = ⟨wh.1, wh.2⟩ := by
  refine ⟨rfl, ?_, ?_, rfl⟩
  · cases canvas with
    | none => rfl
    | some cc => simp [drawFrame]
  · cases container with
    | none => rfl
    | some ww => rfl
